import Mathlib

/-!
Verification of the Greeter program (src/hello_world.cpp).

The program is

  int main() {
      try {
          std::cout << "Hello, World!" << std::endl;
          return 0;
      } catch (const std::exception& e) {
          std::cerr << "An error occurred: " << e.what() << std::endl;
          return 1;
      }
  }

Shallow embedding.  The only source of nondeterminism is how the single
output statement on line 13 behaves, so an execution is determined by a
`WriteBehavior`:

  * `ok`            : the statement completes without error, delivering the
                      full greeting line;
  * `failSilent d`  : the underlying write fails, delivering only the bytes
                      `d`.  Because `std::cout` carries its default (empty)
                      exception mask, the failure only sets the stream error
                      state and no C++ exception is thrown, so control falls
                      through to the `return 0` on line 14;
  * `throwStd d e`  : the statement throws an exception object derived from
                      `std::exception` after delivering the bytes `d`; the
                      string `e` is what `e.what()` renders.  The handler on
                      line 15 matches;
  * `throwNonStd d` : the statement throws an object not derived from
                      `std::exception` after delivering the bytes `d`.  The
                      handler `catch (const std::exception&)` does not match,
                      so the exception leaves `main` and `std::terminate` is
                      invoked: `main` returns no value.

`mainRun` maps a behavior to the observable result: the bytes delivered to
standard output, the bytes delivered to standard error, and the value
returned by `main` (`none` when the uncaught exception reaches
`std::terminate`, so that no return value exists).  The writes to
`std::cerr` inside the catch branch are modelled as succeeding.
-/

/-- The greeting text written by line 13 before the line terminator. -/
def helloMsg : String := "Hello, World!"

/-- The full greeting line: the text plus the line terminator inserted by
`std::endl`. -/
def helloLine : String := helloMsg ++ "\n"

/-- The constant text that line 17 writes in front of `e.what()`. -/
def errTag : String := "An error occurred: "

/-- How the output statement of line 13 behaves in one execution. -/
inductive WriteBehavior where
  | ok : WriteBehavior
  | failSilent : String → WriteBehavior
  | throwStd : String → String → WriteBehavior
  | throwNonStd : String → WriteBehavior
deriving DecidableEq, Repr

/-- The observable outcome of one execution: bytes delivered to standard
output, bytes delivered to standard error, and the value returned by `main`
(`none` when an uncaught exception reaches `std::terminate` and `main`
returns no value). -/
structure ExecResult where
  stdout : String
  stderr : String
  exitCode : Option Nat
deriving DecidableEq, Repr

/-- `main` of src/hello_world.cpp as a function of the behavior of the
output statement.

* If the statement completes, the full greeting line is on standard output
  and line 14 returns `0`.
* If the write fails without throwing (the default exception mask of
  `std::cout`), only the delivered bytes are on standard output, nothing is
  on standard error, and line 14 still returns `0`.
* If the statement throws a `std::exception`, the catch branch (lines
  15-18) writes the tag, `e.what()` and a line terminator to standard error
  and returns `1`.
* If the statement throws anything else, the handler does not match; the
  exception escapes `main`, no diagnostic is written and no value is
  returned. -/
def mainRun : WriteBehavior → ExecResult
  | .ok => { stdout := helloLine, stderr := "", exitCode := some 0 }
  | .failSilent d => { stdout := d, stderr := "", exitCode := some 0 }
  | .throwStd d e =>
      { stdout := d, stderr := errTag ++ e ++ "\n", exitCode := some 1 }
  | .throwNonStd d => { stdout := d, stderr := "", exitCode := none }

/-- Whether the write to standard output failed (every behavior other than
a clean completion). -/
def WriteBehavior.writeFailed : WriteBehavior → Bool
  | .ok => false
  | .failSilent _ => true
  | .throwStd _ _ => true
  | .throwNonStd _ => true

/-- Whether the output statement throws a C++ exception. -/
def WriteBehavior.throws : WriteBehavior → Bool
  | .ok => false
  | .failSilent _ => false
  | .throwStd _ _ => true
  | .throwNonStd _ => true

/-- Physical well-formedness of a behavior: a failing or throwing output
statement does not deliver the complete terminated greeting line (the write
did not succeed, so at most a proper prefix of the line reached standard
output). -/
def WriteBehavior.wf : WriteBehavior → Prop
  | .ok => True
  | .failSilent d => d ≠ helloLine ∧ d.isPrefixOf helloLine
  | .throwStd d _ => d ≠ helloLine ∧ d.isPrefixOf helloLine
  | .throwNonStd d => d ≠ helloLine ∧ d.isPrefixOf helloLine

/-- The greeting is visible: standard output holds the full greeting line. -/
def greets (r : ExecResult) : Prop := r.stdout = helloLine

/-- An error line is visible: standard error is non-empty. -/
def errLine (r : ExecResult) : Prop := r.stderr ≠ ""

instance (r : ExecResult) : Decidable (greets r) := by
  unfold greets; infer_instance

instance (r : ExecResult) : Decidable (errLine r) := by
  unfold errLine; infer_instance

/-- Number of line terminators in a string. -/
def newlineCount (s : String) : Nat := s.data.count '\n'

/-- The stream actions performed by line 13 on the success path:
`operator<<` delivers the greeting text, then `std::endl` delivers the line
terminator and flushes the stream, all before `return 0` on line 14. -/
inductive StreamAction where
  | put : String → StreamAction
  | flush : StreamAction
deriving DecidableEq, Repr

/-- The success-path action sequence of the output statement. -/
def successActions : List StreamAction :=
  [.put helloMsg, .put "\n", .flush]

/-- Bytes delivered by a sequence of stream actions. -/
def deliveredBytes : List StreamAction → String
  | [] => ""
  | .put s :: rest => s ++ deliveredBytes rest
  | .flush :: rest => deliveredBytes rest

/-- Auxiliary: line terminators distribute over string append. -/
theorem newlineCount_append (a b : String) :
    newlineCount (a ++ b) = newlineCount a + newlineCount b := by
  simp [newlineCount, String.data_append, List.count_append]

/-- Auxiliary: the write fails for no behavior other than a clean
completion. -/
theorem writeFailed_eq_false (w : WriteBehavior) :
    w.writeFailed = false ↔ w = WriteBehavior.ok := by
  cases w <;> simp [WriteBehavior.writeFailed]

/-- Auxiliary: on the throwStd path the catch branch puts a non-empty line
on standard error. -/
theorem errLine_throwStd (d e : String) :
    errLine (mainRun (WriteBehavior.throwStd d e)) := by
  intro hempty
  have h1 := congrArg newlineCount hempty
  rw [show (mainRun (WriteBehavior.throwStd d e)).stderr = (errTag ++ e) ++ "\n" from rfl,
    newlineCount_append] at h1
  have h2 : newlineCount "\n" = 1 := by decide
  have h3 : newlineCount "" = 0 := by decide
  omega

/-- C1: in every execution in which the write to standard output succeeds,
the program writes exactly the greeting line to standard output, nothing to
standard error, and main returns 0. -/
theorem c1_success_path (w : WriteBehavior) (h : w.writeFailed = false) :
    mainRun w = { stdout := helloLine, stderr := "", exitCode := some 0 } := by
  rw [(writeFailed_eq_false w).mp h]
  rfl

theorem c1_success_path_witness :
    WriteBehavior.ok.writeFailed = false ∧
      mainRun WriteBehavior.ok =
        { stdout := helloLine, stderr := "", exitCode := some 0 } :=
  ⟨rfl, c1_success_path WriteBehavior.ok rfl⟩

/-- C2 counterexample: with the default (empty) exception mask of std::cout,
a silently failing write is a failed write after which main still returns 0,
so exit code 1 does not hold whenever the write failed. -/
theorem c2_exit_iff_fail_counterexample :
    (WriteBehavior.failSilent "").writeFailed = true ∧
      (mainRun (WriteBehavior.failSilent "")).exitCode = some 0 ∧
      (mainRun (WriteBehavior.failSilent "")).exitCode ≠ some 1 := by
  refine ⟨rfl, rfl, ?_⟩
  simp [mainRun]

/-- C2 amended: main returns 1 exactly when the output statement threw an
exception derived from std::exception, and returns 0 exactly when the
statement threw no exception at all (even if the write failed silently). -/
theorem c2_exit_code_amended (w : WriteBehavior) :
    ((mainRun w).exitCode = some 1 ↔ ∃ d e, w = WriteBehavior.throwStd d e) ∧
      ((mainRun w).exitCode = some 0 ↔ w.throws = false) := by
  cases w <;> simp [mainRun, WriteBehavior.throws]

/-- C3 counterexample: an output statement that raises an error condition not
derived from std::exception produces no diagnostic on standard error and no
failure return. -/
theorem c3_diagnostic_counterexample :
    (WriteBehavior.throwNonStd "").throws = true ∧
      (mainRun (WriteBehavior.throwNonStd "")).stderr = "" ∧
      (mainRun (WriteBehavior.throwNonStd "")).exitCode ≠ some 1 := by
  refine ⟨rfl, rfl, ?_⟩
  simp [mainRun]

/-- C3 amended: in every execution in which the output statement raises an
error derived from std::exception (whose rendering holds no line
terminator), exactly one diagnostic line of the form
An error occurred: desc, followed by a line terminator, reaches standard
error, and main returns failure. -/
theorem c3_diagnostic_line (d e : String) (h : newlineCount e = 0) :
    (mainRun (WriteBehavior.throwStd d e)).stderr = errTag ++ e ++ "\n" ∧
      newlineCount (mainRun (WriteBehavior.throwStd d e)).stderr = 1 ∧
      (mainRun (WriteBehavior.throwStd d e)).exitCode = some 1 := by
  refine ⟨rfl, ?_, rfl⟩
  show newlineCount (errTag ++ e ++ "\n") = 1
  rw [newlineCount_append, newlineCount_append, h]
  decide

theorem c3_diagnostic_line_witness :
    newlineCount "boom" = 0 ∧
      ((mainRun (WriteBehavior.throwStd "" "boom")).stderr =
          errTag ++ "boom" ++ "\n" ∧
        newlineCount (mainRun (WriteBehavior.throwStd "" "boom")).stderr = 1 ∧
        (mainRun (WriteBehavior.throwStd "" "boom")).exitCode = some 1) :=
  ⟨by decide, c3_diagnostic_line "" "boom" (by decide)⟩

/-- C4 counterexample: when the write fails silently with nothing delivered,
neither the greeting nor an error line appears, so the outcome is not
exhaustive as claimed. -/
theorem c4_outcome_counterexample :
    ¬ greets (mainRun (WriteBehavior.failSilent "")) ∧
      ¬ errLine (mainRun (WriteBehavior.failSilent "")) := by
  constructor
  · intro hg
    exact absurd hg (by decide)
  · intro he
    exact he rfl

/-- C4 amended: in no execution do the greeting and an error line both
appear; the greeting or an error line appears in every execution except
those in which the write failed without throwing or the thrown object was
not derived from std::exception, where neither may appear. -/
theorem c4_outcome_exclusive (w : WriteBehavior) (h : w.wf) :
    ¬ (greets (mainRun w) ∧ errLine (mainRun w)) ∧
      (greets (mainRun w) ∨ errLine (mainRun w) ∨
        (∃ d, w = WriteBehavior.failSilent d) ∨
        (∃ d, w = WriteBehavior.throwNonStd d)) := by
  cases w with
  | ok =>
      refine ⟨fun hc => hc.2 rfl, Or.inl rfl⟩
  | failSilent d =>
      refine ⟨fun hc => hc.2 rfl, Or.inr (Or.inr (Or.inl ⟨d, rfl⟩))⟩
  | throwStd d e =>
      refine ⟨fun hc => h.1 hc.1, Or.inr (Or.inl (errLine_throwStd d e))⟩
  | throwNonStd d =>
      refine ⟨fun hc => hc.2 rfl, Or.inr (Or.inr (Or.inr ⟨d, rfl⟩))⟩

theorem c4_outcome_exclusive_witness :
    WriteBehavior.ok.wf ∧
      (¬ (greets (mainRun WriteBehavior.ok) ∧ errLine (mainRun WriteBehavior.ok)) ∧
        (greets (mainRun WriteBehavior.ok) ∨ errLine (mainRun WriteBehavior.ok) ∨
          (∃ d, WriteBehavior.ok = WriteBehavior.failSilent d) ∨
          (∃ d, WriteBehavior.ok = WriteBehavior.throwNonStd d))) :=
  ⟨trivial, c4_outcome_exclusive WriteBehavior.ok trivial⟩

/-- C5 counterexample: an error condition raised as an object not derived
from std::exception is not caught: it escapes main (no return value models
std::terminate), and no diagnostic nor nonzero exit status is produced. -/
theorem c5_catch_counterexample :
    (WriteBehavior.throwNonStd "").throws = true ∧
      (mainRun (WriteBehavior.throwNonStd "")).exitCode = none ∧
      (mainRun (WriteBehavior.throwNonStd "")).stderr = "" :=
  ⟨rfl, rfl, rfl⟩

/-- C5 amended: every exception derived from std::exception raised by the
output statement is caught at the top level of main and converted into the
diagnostic message plus exit status 1; an object not derived from
std::exception is not caught. -/
theorem c5_std_exceptions_caught (d e : String) :
    (mainRun (WriteBehavior.throwStd d e)).exitCode = some 1 ∧
      (mainRun (WriteBehavior.throwStd d e)).stderr = errTag ++ e ++ "\n" :=
  ⟨rfl, rfl⟩

/-- C6: the program reads nothing; any two executions whose writes both
succeed have byte-identical standard output, empty standard error, and the
same exit code. -/
theorem c6_deterministic (w1 w2 : WriteBehavior)
    (h1 : w1.writeFailed = false) (h2 : w2.writeFailed = false) :
    (mainRun w1).stdout = (mainRun w2).stdout ∧
      (mainRun w1).stderr = "" ∧ (mainRun w2).stderr = "" ∧
      (mainRun w1).exitCode = (mainRun w2).exitCode := by
  rw [(writeFailed_eq_false w1).mp h1, (writeFailed_eq_false w2).mp h2]
  exact ⟨rfl, rfl, rfl, rfl⟩

theorem c6_deterministic_witness :
    WriteBehavior.ok.writeFailed = false ∧
      ((mainRun WriteBehavior.ok).stdout = (mainRun WriteBehavior.ok).stdout ∧
        (mainRun WriteBehavior.ok).stderr = "" ∧
        (mainRun WriteBehavior.ok).stderr = "" ∧
        (mainRun WriteBehavior.ok).exitCode = (mainRun WriteBehavior.ok).exitCode) :=
  ⟨rfl, c6_deterministic WriteBehavior.ok WriteBehavior.ok rfl rfl⟩

/-- C7: on the success path a flush action occurs, and the bytes delivered
before it are the complete greeting line, so the line is observable before
main returns. -/
theorem c7_flush_before_return :
    ∃ pre post, successActions = pre ++ StreamAction.flush :: post ∧
      deliveredBytes pre = helloLine :=
  ⟨[.put helloMsg, .put "\n"], [], rfl, by decide⟩

/-- C8: whenever main returns a value, that value is 0 or 1; no other value
is ever returned. -/
theorem c8_exit_zero_or_one (w : WriteBehavior) (c : Nat)
    (h : (mainRun w).exitCode = some c) : c = 0 ∨ c = 1 := by
  cases w <;> simp [mainRun] at h <;> omega

theorem c8_exit_zero_or_one_witness :
    (mainRun WriteBehavior.ok).exitCode = some 0 ∧ (0 = 0 ∨ 0 = 1) :=
  ⟨rfl, c8_exit_zero_or_one WriteBehavior.ok 0 rfl⟩

/-- C9: in every execution in which the output statement throws no
exception, main returns 0 — also when the write failed silently and the
bytes were never delivered, since the default exception mask of std::cout
turns a failed write into stream state, not a throw. -/
theorem c9_no_throw_returns_zero (w : WriteBehavior) (h : w.throws = false) :
    (mainRun w).exitCode = some 0 := by
  cases w with
  | ok => rfl
  | failSilent d => rfl
  | throwStd d e => simp [WriteBehavior.throws] at h
  | throwNonStd d => simp [WriteBehavior.throws] at h

theorem c9_no_throw_returns_zero_witness :
    (WriteBehavior.failSilent "").throws = false ∧
      (mainRun (WriteBehavior.failSilent "")).exitCode = some 0 :=
  ⟨rfl, c9_no_throw_returns_zero (WriteBehavior.failSilent "") rfl⟩

/-- C10: whenever the output statement throws an object not derived from
std::exception, the handler does not match: no diagnostic reaches standard
error, main returns no value (the exception escapes to std::terminate), and
exit code 1 is not produced. -/
theorem c10_non_std_throw_escapes (d : String) :
    (mainRun (WriteBehavior.throwNonStd d)).stderr = "" ∧
      (mainRun (WriteBehavior.throwNonStd d)).exitCode = none ∧
      (mainRun (WriteBehavior.throwNonStd d)).exitCode ≠ some 1 := by
  refine ⟨rfl, rfl, ?_⟩
  simp [mainRun]
